import Mathlib

/-!
Verification of the Synapse RAG backend (main.py, chroma_setup.py) against
its natural-language specification.  The Python functions are shallowly
embedded: text is a list of characters, Python integers are Int, the
external Chroma vector store and the optional extraction libraries are
passed in as oracle functions, and the potentially non-terminating
chunking loop is given an explicit fuel parameter.
-/

set_option maxRecDepth 8000

namespace SynapseRag

/-- Python whitespace test for the characters str.strip removes
(space, tab, newline, carriage return, vertical tab, form feed). -/
def pyIsSpace (c : Char) : Bool :=
  c = ' ' || c = '\t' || c = '\n' || c = '\r' || c = Char.ofNat 11 || c = Char.ofNat 12

/-- Python str.strip(): drop whitespace from both ends of the text. -/
def pyStrip (l : List Char) : List Char :=
  ((l.dropWhile pyIsSpace).reverse.dropWhile pyIsSpace).reverse

/-- Normalization of a Python slice endpoint against a sequence length:
negative indices count from the end, out-of-range indices are clamped. -/
def pyIdx (n : Nat) (i : Int) : Nat :=
  (if i < 0 then max ((n : Int) + i) 0 else min i (n : Int)).toNat

/-- Python slice text[a:b] with unit step, including the handling of
negative and out-of-range endpoints. -/
def pySlice (l : List Char) (a b : Int) : List Char :=
  (l.drop (pyIdx l.length a)).take (pyIdx l.length b - pyIdx l.length a)

/-- chroma_setup.CHUNK_SIZE. -/
def CHUNK_SIZE : Int := 500

/-- chroma_setup.CHUNK_OVERLAP. -/
def CHUNK_OVERLAP : Int := 50

/-- The while loop of chroma_setup._split_text: append text[start:end]
with end = min(start + chunk_size, n); stop when end = n; otherwise
advance start to end - overlap.  The loop in the source has no guard on
chunk_size and overlap, so it need not terminate; fuel counts the loop
iterations still allowed, and none means the fuel ran out. -/
def splitTextLoop (text : List Char) (chunkSize overlap : Int) :
    Nat → Int → List (List Char) → Option (List (List Char))
  | 0, _, _ => none
  | fuel + 1, start, acc =>
    if start < (text.length : Int) then
      if min (start + chunkSize) (text.length : Int) = (text.length : Int) then
        some (acc ++ [pySlice text start (min (start + chunkSize) (text.length : Int))])
      else
        splitTextLoop text chunkSize overlap fuel
          (min (start + chunkSize) (text.length : Int) - overlap)
          (acc ++ [pySlice text start (min (start + chunkSize) (text.length : Int))])
    else
      some acc

/-- chroma_setup._split_text with explicit fuel: empty or whitespace-only
text gives no chunks, otherwise the sliding-window loop runs from start 0. -/
def splitTextFuel (fuel : Nat) (text : List Char) (chunkSize overlap : Int) :
    Option (List (List Char)) :=
  if pyStrip text = [] then some [] else splitTextLoop text chunkSize overlap fuel 0 []

/-- chroma_setup._split_text run with enough fuel to finish whenever
chunk_size > overlap >= 0 (shown by splitTextFuel_total below). -/
def splitText (text : List Char) (chunkSize overlap : Int) : List (List Char) :=
  (splitTextFuel (text.length + 1) text chunkSize overlap).getD []

/-- Python x or default for an optional string argument: None and the
empty string both fall back to the default. -/
def pyOr (o : Option String) (dflt : String) : String :=
  match o with
  | none => dflt
  | some s => if s = "" then dflt else s

/-- source_name.replace applied to single spaces, turning each space into
an underscore. -/
def pyReplaceSpace (s : String) : String :=
  String.mk (s.toList.map fun c => if c = ' ' then '_' else c)

/-- Metadata attached to a stored chunk by chroma_setup.ingest_text. -/
structure FragMeta where
  source : String
  user_id : String
  domain : String
deriving DecidableEq, Repr

/-- One (id, document, metadata) record handed to collection.add. -/
structure FragRecord where
  id : String
  text : List Char
  meta : FragMeta
deriving DecidableEq, Repr

/-- chroma_setup.ingest_text: strip the input, return 0 records for empty
input, otherwise chunk with the module defaults, build ids from the
space-sanitized source name and the chunk index, attach metadata, and
return the batch written to the store together with its count. -/
def ingestText (text : List Char) (sourceName : String)
    (userId domain : Option String) : List FragRecord × Nat :=
  let t := pyStrip text
  if t = [] then ([], 0)
  else
    let chunks := splitText t CHUNK_SIZE CHUNK_OVERLAP
    let base := pyReplaceSpace sourceName
    let recs := chunks.enum.map fun ic =>
      { id := base ++ "_" ++ toString ic.1
        text := ic.2
        meta := { source := sourceName
                  user_id := pyOr userId "global"
                  domain := pyOr domain "general" } : FragRecord }
    if recs = [] then ([], 0) else (recs, recs.length)

/-- The ids of the records a call to ingest_text writes to the store. -/
def ingestIds (text : List Char) (sourceName : String)
    (userId domain : Option String) : List String :=
  ((ingestText text sourceName userId domain).1).map FragRecord.id

/-- Python truthiness of an optional string, as used for the where filter
in chroma_setup.query_chunks: None and the empty string are absent. -/
def pyTruthy (o : Option String) : Option String :=
  match o with
  | none => none
  | some s => if s = "" then none else some s

/-- The arguments chroma_setup.query_chunks passes to collection.query:
the stripped query text, n_results, and the metadata equality filter. -/
structure StoreQuery where
  queryText : String
  nResults : Int
  whereUser : Option String
  whereDomain : Option String
deriving DecidableEq, Repr

/-- A metadata dict coming back from the store; each key may be missing. -/
structure StoreMeta where
  source : Option String
  user_id : Option String
  domain : Option String
deriving DecidableEq, Repr

/-- The empty metadata dict. -/
def StoreMeta.emptyDict : StoreMeta := ⟨none, none, none⟩

/-- The reply of collection.query: per-query document lists and the
matching metadata lists. -/
structure StoreReply where
  documents : List (List String)
  metadatas : List (List StoreMeta)
deriving DecidableEq, Repr

/-- One chunk dict returned by chroma_setup.query_chunks. -/
structure RetChunk where
  text : String
  source : String
  user_id : Option String
  domain : Option String
deriving DecidableEq, Repr

/-- str.strip on a Lean string. -/
def pyStripS (s : String) : String := String.mk (pyStrip s.toList)

/-- chroma_setup.query_chunks with the vector store passed as an oracle:
strip the query (empty gives no results), build the where filter from the
truthy scoping arguments, call the store, turn a store exception into an
empty result, and otherwise convert the first document list into chunk
dicts, defaulting the source to unknown when the metadata lacks it. -/
def queryChunks (store : StoreQuery → Except Unit StoreReply)
    (queryText : String) (topK : Int) (userId domain : Option String) :
    List RetChunk :=
  let q := pyStripS queryText
  if q = "" then []
  else
    match store ⟨q, topK, pyTruthy userId, pyTruthy domain⟩ with
    | .error _ => []
    | .ok reply =>
      match reply.documents with
      | [] => []
      | docs0 :: _ =>
        if docs0 = [] then []
        else
          docs0.enum.map fun it =>
            let meta :=
              match reply.metadatas with
              | [] => StoreMeta.emptyDict
              | m0 :: _ =>
                if m0 = [] then StoreMeta.emptyDict else m0.getD it.1 StoreMeta.emptyDict
            { text := it.2
              source := meta.source.getD "unknown"
              user_id := meta.user_id
              domain := meta.domain : RetChunk }

/-- The pydantic request model SearchQuery of main.py, with its exact
field set and defaults. -/
structure SearchQuery where
  query : String
  subject : Option String := some ""
  user_id : Option String := some "global"
  domain : Option String := some "general"
deriving DecidableEq, Repr

/-- The field names of the pydantic SearchQuery model; a request body key
outside this list is ignored by the endpoint. -/
def searchQueryFields : List String := ["query", "subject", "user_id", "domain"]

/-- The JSON body returned by the search endpoint. -/
structure SearchResponse where
  query : String
  subject : Option String
  user_id : Option String
  domain : Option String
  chunks : List RetChunk
deriving DecidableEq, Repr

/-- main.search_rag: echo the request fields and return the chunks of
query_chunks called with the literal top_k=5. -/
def searchRag (store : StoreQuery → Except Unit StoreReply) (data : SearchQuery) :
    SearchResponse :=
  { query := data.query
    subject := data.subject
    user_id := data.user_id
    domain := data.domain
    chunks := queryChunks store data.query 5 data.user_id data.domain }

/-- The store query a given search request makes query_chunks issue. -/
def issuedStoreQuery (data : SearchQuery) : StoreQuery :=
  ⟨pyStripS data.query, 5, pyTruthy data.user_id, pyTruthy data.domain⟩

/-- The pydantic request model IngestTextPayload of main.py. -/
structure IngestTextPayload where
  text : String
  source_name : String := "student_upload"
  user_id : Option String := some "global"
  domain : Option String := some "general"
deriving DecidableEq, Repr

/-- main.ingest_text_endpoint: always answers with the chunk count of
ingest_text (an error value would carry the HTTP status code). -/
def ingestTextEndpoint (p : IngestTextPayload) : Except Nat Nat :=
  .ok (ingestText p.text.toList p.source_name
        (some (pyOr p.user_id "global")) (some (pyOr p.domain "general"))).2

/-- Whether the list starts with the given pattern. -/
def listStartsWith : List Char → List Char → Bool
  | _, [] => true
  | [], _ :: _ => false
  | a :: as, b :: bs => a == b && listStartsWith as bs

/-- Python substring membership needle in hay. -/
def listHasSub (needle : List Char) : List Char → Bool
  | [] => listStartsWith [] needle
  | c :: rest => listStartsWith (c :: rest) needle || listHasSub needle rest

/-- Python test mime_type and needle in mime_type. -/
def mimeHas (mime : Option String) (needle : String) : Bool :=
  match mime with
  | none => false
  | some m => listHasSub needle.toList m.toList

/-- str.lower restricted to the ASCII case mapping. -/
def pyLower (s : String) : String := String.mk (s.toList.map Char.toLower)

/-- str.endswith. -/
def pyEndsWith (s suffix : String) : Bool :=
  s.toList.reverse.take suffix.toList.length == suffix.toList.reverse

/-- main.extract_text_from_bytes.  The optional extraction libraries
(PyPDF2, python-docx, textract) are oracles; none models the library
being absent, in which case the pdf and docx helpers raise RuntimeError,
which the surrounding try turns into a 400 error, as does any extraction
exception.  File bytes are modelled after their utf-8 decode with errors
ignored, which for the plain-text branches is the decode itself. -/
def extractTextFromBytes
    (pdfLib docxLib textractLib : Option (List Char → Except Unit (List Char)))
    (data : List Char) (filename : String) (mime : Option String) :
    Except Unit (List Char) :=
  let fl := pyLower filename
  if pyEndsWith fl ".pdf" || mimeHas mime "pdf" then
    match pdfLib with
    | none => .error ()
    | some f =>
      match f data with
      | .error _ => .error ()
      | .ok t => .ok (pyStrip t)
  else if pyEndsWith fl ".docx" || mimeHas mime "word" then
    match docxLib with
    | none => .error ()
    | some f =>
      match f data with
      | .error _ => .error ()
      | .ok t => .ok (pyStrip t)
  else if pyEndsWith fl ".txt" || mimeHas mime "text" then
    .ok (pyStrip data)
  else
    match textractLib with
    | none => .ok (pyStrip data)
    | some f =>
      match f data with
      | .ok t => .ok (pyStrip t)
      | .error _ => .ok (pyStrip data)

/-- The pydantic request model IngestFilePayload of main.py, with the
base64 payload replaced by the outcome of base64.b64decode: none models
a binascii.Error on invalid input. -/
structure IngestFilePayload where
  decodedData : Option (List Char)
  filename : String := "upload"
  mime_type : Option String := none
  user_id : Option String := some "global"
  domain : Option String := some "general"

/-- main.ingest_file_endpoint: 400 on invalid base64, 400 when extraction
raises, 400 when the extracted text is empty, and otherwise the count
reported by ingest_text. -/
def ingestFileEndpoint
    (pdfLib docxLib textractLib : Option (List Char → Except Unit (List Char)))
    (p : IngestFilePayload) : Except Nat Nat :=
  match p.decodedData with
  | none => .error 400
  | some data =>
    match extractTextFromBytes pdfLib docxLib textractLib data p.filename p.mime_type with
    | .error _ => .error 400
    | .ok text =>
      if text = [] then .error 400
      else
        .ok (ingestText text p.filename
              (some (pyOr p.user_id "global")) (some (pyOr p.domain "general"))).2

/-- The module-level names defined by chroma_setup.py, in source order. -/
def chromaSetupExports : List String :=
  ["os", "chromadb", "CHROMA_DB_PATH", "DOCUMENTS_FOLDER", "CHUNK_SIZE", "CHUNK_OVERLAP",
   "chroma_client", "collection", "_split_text", "_read_plain_text", "_read_pdf",
   "_read_docx", "load_documents_from_folder", "ingest_text",
   "ingest_documents_from_folder", "query_chunks"]

/-- The names main.py imports from chroma_setup, in source order. -/
def mainChromaImportList : List String :=
  ["query_chunks", "ingest_documents", "ingest_text", "collection"]

/-- A Python from-import: the first requested name the module does not
define raises ImportError carrying that name. -/
def importFrom (exports names : List String) : Except String Unit :=
  match names.find? (fun n => !(exports.contains n)) with
  | some n => .error n
  | none => .ok ()

/-- The routes main.py would register once its module body finishes. -/
def mainRoutes : List String := ["/search", "/ingest-text", "/ingest-file", "/"]

/-- Loading the module main: the from-import of chroma_setup runs outside
any try block; the optional-library imports and the boot-time seeding are
each wrapped in a handler and cannot abort the module, after which the
routes exist. -/
def mainModuleInit : Except String (List String) := do
  let _ ← importFrom chromaSetupExports mainChromaImportList
  pure mainRoutes

/-- A concrete store oracle holding exactly one matching fragment. -/
def oneResultStore : StoreQuery → Except Unit StoreReply := fun _ =>
  .ok { documents := [["lonely chunk"]]
        metadatas := [[⟨some "notes.txt", some "global", some "general"⟩]] }

/-- A concrete store oracle holding ten matching fragments, of which it
returns at most n_results. -/
def capStore10 : StoreQuery → Except Unit StoreReply := fun q =>
  .ok { documents := [(List.range (min q.nResults.toNat 10)).map (fun i => toString i)]
        metadatas := [] }

/-- A concrete store oracle that answers every query the same way. -/
def storeA : StoreQuery → Except Unit StoreReply := fun _ =>
  .ok { documents := [["alpha"]], metadatas := [] }

/-- A concrete store oracle that only answers queries with n_results 5
and fails on every other query. -/
def storeB : StoreQuery → Except Unit StoreReply := fun q =>
  if q.nResults = 5 then .ok { documents := [["alpha"]], metadatas := [] } else .error ()

/-- A concrete store oracle whose query call always raises. -/
def failingStore : StoreQuery → Except Unit StoreReply := fun _ => .error ()

theorem pyIdx_of_ok (n : Nat) (i : Int) (h0 : 0 ≤ i) (hn : i ≤ (n : Int)) :
    pyIdx n i = i.toNat := by
  unfold pyIdx
  rw [if_neg (by omega)]
  omega

theorem pySlice_length (l : List Char) (a b : Int)
    (ha : 0 ≤ a) (hab : a ≤ b) (hb : b ≤ (l.length : Int)) :
    (pySlice l a b).length = (b - a).toNat := by
  unfold pySlice
  rw [pyIdx_of_ok l.length a ha (by omega), pyIdx_of_ok l.length b (by omega) hb]
  simp only [List.length_take, List.length_drop]
  omega

theorem splitTextLoop_total (text : List Char) (cs ov : Int)
    (hov : 0 ≤ ov) (hcs : ov < cs) :
    ∀ (fuel : Nat) (start : Int) (acc : List (List Char)),
      0 ≤ start → ((text.length : Int) - start).toNat < fuel →
      ∃ out, splitTextLoop text cs ov fuel start acc = some out := by
  intro fuel
  induction fuel with
  | zero => intro start acc _ h; omega
  | succ k ih =>
    intro start acc hs hf
    rw [splitTextLoop]
    by_cases hlt : start < (text.length : Int)
    · rw [if_pos hlt]
      by_cases he : min (start + cs) (text.length : Int) = (text.length : Int)
      · rw [if_pos he]; exact ⟨_, rfl⟩
      · rw [if_neg he]
        exact ih _ _ (by omega) (by omega)
    · rw [if_neg hlt]; exact ⟨_, rfl⟩

theorem splitTextLoop_ne_nil (text : List Char) (cs ov : Int)
    (hov : 0 ≤ ov) (hcs : ov < cs) :
    ∀ (fuel : Nat) (start : Int) (acc out : List (List Char)),
      0 ≤ start →
      (∀ c ∈ acc, c ≠ []) →
      splitTextLoop text cs ov fuel start acc = some out →
      ∀ c ∈ out, c ≠ [] := by
  intro fuel
  induction fuel with
  | zero =>
    intro start acc out _ _ h
    exact absurd h (by simp [splitTextLoop])
  | succ k ih =>
    intro start acc out hs hacc h
    rw [splitTextLoop] at h
    by_cases hlt : start < (text.length : Int)
    · rw [if_pos hlt] at h
      have hchunk : pySlice text start (min (start + cs) (text.length : Int)) ≠ [] := by
        have hl : (pySlice text start (min (start + cs) (text.length : Int))).length
            = ((min (start + cs) (text.length : Int)) - start).toNat := by
          apply pySlice_length <;> omega
        intro hc
        rw [hc] at hl
        simp only [List.length_nil] at hl
        omega
      have hacc2 : ∀ c ∈ acc ++ [pySlice text start (min (start + cs) (text.length : Int))],
          c ≠ [] := by
        intro c hc
        rcases List.mem_append.1 hc with h1 | h1
        · exact hacc c h1
        · rw [List.mem_singleton.1 h1]; exact hchunk
      by_cases he : min (start + cs) (text.length : Int) = (text.length : Int)
      · rw [if_pos he] at h
        cases h
        exact hacc2
      · rw [if_neg he] at h
        exact ih _ _ _ (by omega) hacc2 h
    · rw [if_neg hlt] at h
      cases h
      exact hacc

theorem splitText_all_ne_nil (text : List Char) (cs ov : Int)
    (hov : 0 ≤ ov) (hcs : ov < cs) :
    ∀ c ∈ splitText text cs ov, c ≠ [] := by
  unfold splitText splitTextFuel
  by_cases hstrip : pyStrip text = []
  · simp [hstrip]
  · rw [if_neg hstrip]
    obtain ⟨out, hout⟩ :=
      splitTextLoop_total text cs ov hov hcs (text.length + 1) 0 [] (by omega) (by omega)
    rw [hout, Option.getD_some]
    exact splitTextLoop_ne_nil text cs ov hov hcs _ _ _ _ (by omega) (by simp) hout

theorem snd_mem_of_mem_enum {α : Type} {l : List α} {p : Nat × α} (h : p ∈ l.enum) :
    p.2 ∈ l := by
  rw [List.enum_eq_zip_range] at h
  exact (List.of_mem_zip h).2

theorem ingestIds_formula (text : List Char) (src : String) (u d : Option String) :
    ingestIds text src u d =
      (List.range (splitText (pyStrip text) CHUNK_SIZE CHUNK_OVERLAP).length).map
        (fun i => pyReplaceSpace src ++ "_" ++ toString i) := by
  by_cases h : pyStrip text = []
  · have h2 : splitText ([] : List Char) CHUNK_SIZE CHUNK_OVERLAP = [] := rfl
    simp [ingestIds, ingestText, h, h2]
  · simp only [ingestIds, ingestText, if_neg h]
    rcases hchunks : splitText (pyStrip text) CHUNK_SIZE CHUNK_OVERLAP with _ | ⟨c, cs'⟩
    · simp
    · rw [if_neg (by simp)]
      simp only [List.map_map]
      rw [show (List.range (c :: cs').length).map
            (fun i => pyReplaceSpace src ++ "_" ++ toString i)
          = ((c :: cs').enum.map Prod.fst).map
            (fun i => pyReplaceSpace src ++ "_" ++ toString i) by
        rw [List.enum_map_fst]]
      rw [List.map_map]
      rfl

/-- C1 counterexample: the search request model has neither a use_web nor
a top_k field, and when the store yields a single local result, which is
below the max of 2 and the integer half of the default top_k 5, the search
response contains exactly that local chunk: nothing tagged with a web
source is appended, contradicting the claimed coverage heuristic. -/
theorem C1_counterexample :
    "use_web" ∉ searchQueryFields ∧ "top_k" ∉ searchQueryFields ∧
    (searchRag oneResultStore { query := "anything" }).chunks =
      [{ text := "lonely chunk", source := "notes.txt",
         user_id := some "global", domain := some "general" }] := by
  refine ⟨by decide, by decide, by decide⟩

/-- C1 (amended): the search endpoint has no use_web or top_k request
field and never invokes any web-search collaborator; every chunk of a
search response comes from the first document list of the local store
reply to the one issued store query, regardless of how few local results
there are. -/
theorem C1_no_web_fallback (store : StoreQuery → Except Unit StoreReply)
    (req : SearchQuery) (c : RetChunk)
    (hc : c ∈ (searchRag store req).chunks) :
    ("use_web" ∉ searchQueryFields ∧ "top_k" ∉ searchQueryFields) ∧
    ∃ reply docs0 rest, store (issuedStoreQuery req) = .ok reply ∧
      reply.documents = docs0 :: rest ∧ c.text ∈ docs0 := by
  refine ⟨⟨by decide, by decide⟩, ?_⟩
  simp only [searchRag, queryChunks, issuedStoreQuery] at hc ⊢
  split at hc
  · cases hc
  · split at hc
    next e heq => cases hc
    next reply heq =>
      split at hc
      next hdocs => cases hc
      next docs0 rest hdocs =>
        split at hc
        · cases hc
        · rcases List.mem_map.1 hc with ⟨it, hit, hceq⟩
          refine ⟨reply, docs0, rest, heq, hdocs, ?_⟩
          rw [← hceq]
          exact snd_mem_of_mem_enum hit

/-- C1 witness: the amended statement instantiated at the one-result
store and a concrete request. -/
theorem C1_witness :
    ("use_web" ∉ searchQueryFields ∧ "top_k" ∉ searchQueryFields) ∧
    ∃ reply docs0 rest,
      oneResultStore (issuedStoreQuery { query := "anything" }) = .ok reply ∧
      reply.documents = docs0 :: rest ∧
      ("lonely chunk" : String) ∈ docs0 :=
  C1_no_web_fallback oneResultStore { query := "anything" }
    { text := "lonely chunk", source := "notes.txt",
      user_id := some "global", domain := some "general" }
    (by decide)

/-- C2: loading module main fails with an ImportError naming
ingest_documents, because main.py imports that name from chroma_setup
while chroma_setup defines only ingest_documents_from_folder; the import
runs outside every exception handler of the module body, so the route
table is never reached and no endpoint is ever served. -/
theorem C2_import_error :
    mainModuleInit = .error "ingest_documents" ∧
    "ingest_documents" ∉ chromaSetupExports ∧
    "ingest_documents_from_folder" ∈ chromaSetupExports := by
  refine ⟨rfl, by decide, by decide⟩

theorem splitTextLoop_ab_stuck :
    ∀ (fuel : Nat) (acc : List (List Char)),
      splitTextLoop (['a', 'b']) 1 1 fuel 0 acc = none := by
  intro fuel
  induction fuel with
  | zero => intro acc; rfl
  | succ k ih =>
    intro acc
    rw [splitTextLoop]
    rw [if_pos (by decide)]
    rw [if_neg (by decide)]
    rw [show min ((0 : Int) + 1) ((['a', 'b'] : List Char).length : Int) - 1 = 0 by decide]
    exact ih _

/-- C3: the chunker has no guard on its configuration; on the two
character text ab with chunk_size 1 and overlap 1 the sliding-window loop
never terminates, for any number of allowed iterations the loop runs out
of fuel, so the code loops indefinitely instead of failing fast as the
claim states. -/
theorem C3_split_text_diverges :
    ∀ fuel : Nat, splitTextFuel fuel (['a', 'b']) 1 1 = none := by
  intro fuel
  rw [splitTextFuel, if_neg (by decide)]
  exact splitTextLoop_ab_stuck fuel []

/-- C4 counterexample: with chunk_size 2 and overlap 0, a valid
configuration, the chunker returns the raw windows of the text a-space:
the first chunk keeps its trailing space, and the middle window consists
of whitespace only yet is returned rather than omitted, contradicting
the claimed trimming and filtering. -/
theorem C4_counterexample :
    splitText (['a', ' ', ' ', ' ', 'b']) 2 0 = [['a', ' '], [' ', ' '], ['b']] ∧
    pyStrip ([' ', ' ']) = [] := by
  refine ⟨by decide, by decide⟩

/-- C4 (amended): chunks are raw untrimmed windows and whitespace-only
windows are kept, but under chunk_size > overlap >= 0 every returned
chunk is a non-empty character sequence, and consequently every record
stored by ingest_text has non-empty (though possibly whitespace-only)
text. -/
theorem C4_chunks_nonempty :
    (∀ (text : List Char) (cs ov : Int), 0 ≤ ov → ov < cs →
      ((splitText text cs ov).all fun c => !c.isEmpty) = true) ∧
    (∀ (text : List Char) (src : String) (u d : Option String),
      (((ingestText text src u d).1).all fun r => !r.text.isEmpty) = true) := by
  constructor
  · intro text cs ov hov hcs
    rw [List.all_eq_true]
    intro c hc
    have := splitText_all_ne_nil text cs ov hov hcs c hc
    simp [List.isEmpty_iff, this]
  · intro text src u d
    rw [List.all_eq_true]
    intro r hr
    by_cases h : pyStrip text = []
    · simp [ingestText, h] at hr
    · simp only [ingestText, if_neg h] at hr
      rcases hchunks : splitText (pyStrip text) CHUNK_SIZE CHUNK_OVERLAP with _ | ⟨c, cs'⟩
      · rw [hchunks] at hr
        simp at hr
      · rw [hchunks] at hr
        rw [if_neg (by simp)] at hr
        rcases List.mem_map.1 hr with ⟨ic, hic, hreq⟩
        have hmem : ic.2 ∈ (c :: cs') := snd_mem_of_mem_enum hic
        have hne : ic.2 ≠ [] := by
          rw [← hchunks] at hmem
          exact splitText_all_ne_nil (pyStrip text) CHUNK_SIZE CHUNK_OVERLAP
            (by decide) (by decide) ic.2 hmem
        rw [← hreq]
        simp [List.isEmpty_iff, hne]

/-- C4 witness: the amended statement instantiated at a three character
text with chunk_size 2 and overlap 1, and at a concrete ingestion. -/
theorem C4_witness :
    ((splitText (['a', 'b', 'c']) 2 1).all fun c => !c.isEmpty) = true ∧
    (((ingestText (['h', 'i']) "doc" (some "alice") (some "math")).1).all
      fun r => !r.text.isEmpty) = true :=
  ⟨C4_chunks_nonempty.1 ['a', 'b', 'c'] 2 1 (by decide) (by decide),
   C4_chunks_nonempty.2 ['h', 'i'] "doc" (some "alice") (some "math")⟩

/-- C5 counterexample: chunking 1200 copies of A with chunk_size 500 and
overlap 50 yields chunks of lengths 500, 500 and 300, because the last
window runs from offset 900 to the end of the 1200 character text; the
claimed final length 250 is wrong. -/
theorem C5_counterexample :
    (splitText (List.replicate 1200 'A') 500 50).map List.length = [500, 500, 300] ∧
    [500, 500, 300] ≠ [500, 500, 250] := by
  refine ⟨by decide, by decide⟩

/-- C5 (amended): chunking 1200 copies of A with chunk_size 500 and
overlap 50 yields exactly the three windows at start offsets 0, 450 and
900, of lengths 500, 500 and 300. -/
theorem C5_chunk_offsets :
    splitText (List.replicate 1200 'A') 500 50 =
      [pySlice (List.replicate 1200 'A') 0 500,
       pySlice (List.replicate 1200 'A') 450 950,
       pySlice (List.replicate 1200 'A') 900 1200] ∧
    (splitText (List.replicate 1200 'A') 500 50).map List.length = [500, 500, 300] := by
  refine ⟨by decide, by decide⟩

/-- C6 counterexample: ingesting the same text and source name under two
different user and domain scopes produces the same single id doc_0,
which carries no scope component, contradicting the claimed id shape of
scope underscore source underscore index. -/
theorem C6_counterexample :
    ingestIds (['h', 'i']) "doc" (some "alice") (some "math") = ["doc_0"] ∧
    ingestIds (['h', 'i']) "doc" (some "bob") (some "law") = ["doc_0"] := by
  refine ⟨by decide, by decide⟩

/-- C6 (amended): ingest_text assigns each chunk the deterministic id
built from the space-sanitized source name and the chunk index alone;
since the id list is a function of the text and source name only,
ingesting the same inputs twice with unchanged chunking parameters yields
the identical id list, so the second ingestion overwrites the stored
fragments rather than duplicating them. -/
theorem C6_deterministic_ids (text : List Char) (src : String) (u d : Option String) :
    ingestIds text src u d =
      (List.range (splitText (pyStrip text) CHUNK_SIZE CHUNK_OVERLAP).length).map
        (fun i => pyReplaceSpace src ++ "_" ++ toString i) :=
  ingestIds_formula text src u d

/-- C7 counterexample: an ingest-file request whose decoded file is
whitespace-only text extracts to the empty string, and the endpoint
answers with a 400 error instead of the claimed success response with a
zero count. -/
theorem C7_counterexample :
    ingestFileEndpoint none none none
      { decodedData := some [' ', ' ', ' '], filename := "notes.txt" } = .error 400 ∧
    (Except.error 400 : Except Nat Nat) ≠ .ok 0 :=
  ⟨rfl, fun h => Except.noConfusion h⟩

/-- C7 (amended): the plain-text ingestion endpoint always reports a
count, possibly zero, but the file ingestion endpoint rejects with a 400
error whenever extraction yields empty text, extraction failure included,
rather than reporting a zero count. -/
theorem C7_ingest_endpoint_counts (p : IngestTextPayload)
    (pdfL docxL texL : Option (List Char → Except Unit (List Char)))
    (fp : IngestFilePayload) (data : List Char)
    (hdec : fp.decodedData = some data)
    (hext : extractTextFromBytes pdfL docxL texL data fp.filename fp.mime_type = .ok []) :
    (∃ n, ingestTextEndpoint p = .ok n) ∧
    ingestFileEndpoint pdfL docxL texL fp = .error 400 := by
  constructor
  · exact ⟨_, rfl⟩
  · simp [ingestFileEndpoint, hdec, hext]

/-- C7 witness: the amended statement instantiated at a concrete text
payload and a whitespace-only text file. -/
theorem C7_witness :
    (∃ n, ingestTextEndpoint { text := "hello there" } = .ok n) ∧
    ingestFileEndpoint none none none
      { decodedData := some [' ', ' ', ' '], filename := "notes.txt" } = .error 400 :=
  C7_ingest_endpoint_counts { text := "hello there" } none none none
    { decodedData := some [' ', ' ', ' '], filename := "notes.txt" }
    [' ', ' ', ' '] rfl rfl

/-- C8 counterexample: the search request model has no top_k field, and
against a store holding ten matching fragments and honoring n_results the
response still carries exactly 5 chunks, so a request cannot obtain its
own top_k worth of fragments. -/
theorem C8_counterexample :
    "top_k" ∉ searchQueryFields ∧
    (searchRag capStore10 { query := "q" }).chunks.length = 5 := by
  refine ⟨by decide, by decide⟩

/-- C8 (amended): the search endpoint accepts no top_k parameter and
always queries the vector store with the literal n_results 5: two stores
agreeing on every query with n_results 5 produce identical search
responses, whatever they answer elsewhere. -/
theorem C8_fixed_top_k (store store2 : StoreQuery → Except Unit StoreReply)
    (req : SearchQuery) (h : ∀ q, q.nResults = 5 → store q = store2 q) :
    searchRag store req = searchRag store2 req := by
  simp only [searchRag, queryChunks]
  rw [h ⟨pyStripS req.query, 5, pyTruthy req.user_id, pyTruthy req.domain⟩ rfl]

/-- C8 witness: the amended statement instantiated at two stores that
agree at n_results 5 and disagree everywhere else. -/
theorem C8_witness :
    searchRag storeA { query := "hello" } = searchRag storeB { query := "hello" } :=
  C8_fixed_top_k storeA storeB { query := "hello" }
    (fun q hq => by simp [storeA, storeB, hq])

/-- C9: if the store query issued by query_chunks raises, the function
returns the empty chunk list instead of propagating the error, so a
store-level failure never fails the whole search request. -/
theorem C9_store_failure_empty (store : StoreQuery → Except Unit StoreReply)
    (queryText : String) (topK : Int) (userId domain : Option String)
    (h : store ⟨pyStripS queryText, topK, pyTruthy userId, pyTruthy domain⟩ = .error ()) :
    queryChunks store queryText topK userId domain = [] := by
  simp only [queryChunks]
  by_cases hq : pyStripS queryText = ""
  · rw [if_pos hq]
  · rw [if_neg hq, h]

/-- C9 witness: the statement instantiated at a store whose query always
raises. -/
theorem C9_witness : queryChunks failingStore "what" 5 none none = [] :=
  C9_store_failure_empty failingStore "what" 5 none none rfl

/-- C10: the ids ingest_text generates depend only on the source name and
the chunk index, never on user_id or domain: two ingestions of the same
text and source name under different ownership scopes generate identical
id lists, so the later ingestion overwrites the earlier fragments across
scopes. -/
theorem C10_ids_scope_independent (text : List Char) (src : String)
    (u1 d1 u2 d2 : Option String) :
    ingestIds text src u1 d1 = ingestIds text src u2 d2 := by
  rw [ingestIds_formula, ingestIds_formula]

end SynapseRag
